import Mathlib

/-!
Verification of the Hybrid Logical Clock implementation in `src/main.rs`.

The clock stores two `u64` fields, `physical_time` and `logical_counter`.
Machine integers are embedded as `Nat`; the only arithmetic the code performs
on them is `max` (which never overflows) and `+ 1` on the counter, which is
unsigned 64-bit addition and therefore taken modulo `2 ^ 64` (release-mode
wrap-around semantics).

The two operations under verification are:
* `increment` (the spec's `advance`), `src/main.rs` lines 26-34;
* `update` (the spec's `merge`), `src/main.rs` lines 37-46.

Both read the wall clock via `current_millis()`; the embedding passes that
value in explicitly as the argument `now`.
-/

/-- The size of the unsigned 64-bit integer domain: counter additions in the
source are `u64` additions, i.e. additions modulo this constant. -/
def u64Size : Nat := 2 ^ 64

/-- The clock struct from `src/main.rs` lines 11-14: a physical time in
milliseconds and a logical counter, both `u64`. -/
structure HybridLogicalClock where
  physical_time : Nat
  logical_counter : Nat
  deriving DecidableEq, Repr

namespace HybridLogicalClock

/-- `HybridLogicalClock::new` (lines 18-23), with the wall-clock read passed
in as `now`: physical time `now`, counter `0`. -/
def new (now : Nat) : HybridLogicalClock :=
  { physical_time := now, logical_counter := 0 }

/-- `HybridLogicalClock::get_time` (lines 49-51): the pair
`(physical_time, logical_counter)`. -/
def get_time (c : HybridLogicalClock) : Nat × Nat :=
  (c.physical_time, c.logical_counter)

/-- `HybridLogicalClock::increment` (lines 26-34), with the wall-clock read
passed in as `now`.  If `now == self.physical_time` the counter is bumped
(`u64` addition, hence the modulus); otherwise `physical_time` is set to
`now` and the counter reset to `0`. -/
def increment (c : HybridLogicalClock) (now : Nat) : HybridLogicalClock :=
  if now = c.physical_time then
    { c with logical_counter := (c.logical_counter + 1) % u64Size }
  else
    { physical_time := now, logical_counter := 0 }

/-- `HybridLogicalClock::update` (lines 37-46), with the wall-clock read
passed in as `now`.  The source first assigns
`self.physical_time = max(now, remote.physical_time)` and then compares the
assigned value against `remote.physical_time`; the assignment is inlined
here, so the branch condition is `max now remote.physical_time =
remote.physical_time`.  On a tie the counter becomes
`max(self.logical_counter, remote.logical_counter) + 1` (a `u64` addition),
otherwise it resets to `0`. -/
def update (c : HybridLogicalClock) (remote : HybridLogicalClock) (now : Nat) :
    HybridLogicalClock :=
  if max now remote.physical_time = remote.physical_time then
    { physical_time := max now remote.physical_time,
      logical_counter := (max c.logical_counter remote.logical_counter + 1) % u64Size }
  else
    { physical_time := max now remote.physical_time, logical_counter := 0 }

end HybridLogicalClock

open HybridLogicalClock

/-- Strict lexicographic order on timestamps `(physical_time, logical_counter)`. -/
def tsLt (a b : Nat × Nat) : Prop :=
  a.1 < b.1 ∨ (a.1 = b.1 ∧ a.2 < b.2)

instance tsLtDecidable (a b : Nat × Nat) : Decidable (tsLt a b) := by
  unfold tsLt
  exact inferInstance

/-- Helper: on the tie branch (`max now remote.physical_time =
remote.physical_time`) `update` returns the remote physical time together
with `(max of the two counters + 1) mod 2^64`. -/
theorem update_tie_eq (c r : HybridLogicalClock) (now : Nat)
    (h : max now r.physical_time = r.physical_time) :
    update c r now =
      { physical_time := r.physical_time,
        logical_counter := (max c.logical_counter r.logical_counter + 1) % u64Size } := by
  simp [update, h]

/-- Helper: off the tie branch `update` returns `max now remote.physical_time`
with counter `0`. -/
theorem update_advance_eq (c r : HybridLogicalClock) (now : Nat)
    (h : ¬ max now r.physical_time = r.physical_time) :
    update c r now =
      { physical_time := max now r.physical_time, logical_counter := 0 } := by
  simp [update, h]

/-- Claim C1: the spec asserts that no `advance`/`merge` call ever produces a
timestamp below the clock's prior one under lexicographic order.  The code
violates this: advancing the clock `(100, 0)` when the time source reads
`50` takes the `else` branch of `increment` and sets the clock to `(50, 0)`,
a strict lexicographic decrease of the observed timestamp. -/
theorem increment_moves_time_backward_C1 :
    increment { physical_time := 100, logical_counter := 0 } 50 =
      { physical_time := 50, logical_counter := 0 } ∧
    tsLt (increment { physical_time := 100, logical_counter := 0 } 50).get_time
      (get_time { physical_time := 100, logical_counter := 0 }) := by
  decide

/-- Claim C3: the spec requires `merge` to set `physical_time` to
`max(now, remote.physical_time, clock.physical_time)`.  The code computes
only `max(now, remote.physical_time)`: merging clock `(150, 2)` with remote
`(100, 5)` at `now = 90` leaves `physical_time = 100`, not the required
`max(90, 100, 150) = 150`. -/
theorem update_ignores_local_physical_C3 :
    (update { physical_time := 150, logical_counter := 2 }
        { physical_time := 100, logical_counter := 5 } 90).physical_time = 100 ∧
    (100 : Nat) ≠ max 90 (max 100 150) := by
  decide

/-- Claim C4: the spec says that when the local physical time alone is the
maximum, `merge` keeps it and bumps the local counter, so `(150, 2)` merged
with `(100, 5)` at `now = 90` should give `(150, 3)`.  The code instead
computes `max(90, 100) = 100`, ties with the remote, and yields `(100, 6)`. -/
theorem update_local_ahead_C4 :
    (update { physical_time := 150, logical_counter := 2 }
        { physical_time := 100, logical_counter := 5 } 90).get_time = (100, 6) ∧
    ((100, 6) : Nat × Nat) ≠ (150, 3) := by
  decide

/-- Claim C7: the spec requires `advance` to hold `physical_time` steady and
bump the counter when the time source moves backward.  The code's
`increment` has no such branch: from `(100, 5)` with `now = 50` it takes the
`else` branch and produces `(50, 0)` instead of the required `(100, 6)`. -/
theorem increment_regression_C7 :
    increment { physical_time := 100, logical_counter := 5 } 50 =
      { physical_time := 50, logical_counter := 0 } ∧
    ({ physical_time := 50, logical_counter := 0 } : HybridLogicalClock) ≠
      { physical_time := 100, logical_counter := 6 } := by
  decide

/-- Claim C9: after any `update`, the clock's physical time is at least the
remote's physical time, since both branches store
`max now remote.physical_time`. -/
theorem update_physical_ge_remote_C9 (c r : HybridLogicalClock) (now : Nat) :
    r.physical_time ≤ (update c r now).physical_time := by
  have h : (update c r now).physical_time = max now r.physical_time := by
    unfold update
    split <;> rfl
  rw [h]
  exact le_max_right _ _

/-- Claim C2 counterexample: causality fails at the `u64` boundary.  Merging
clock `(100, 0)` with remote `(100, 2^64 - 1)` at `now = 90` wraps the
counter to `0`, so the merged timestamp `(100, 0)` is not strictly greater
than the remote timestamp under lexicographic order. -/
theorem update_causality_counterexample_C2 :
    ¬ tsLt (get_time { physical_time := 100, logical_counter := u64Size - 1 })
      ((update { physical_time := 100, logical_counter := 0 }
        { physical_time := 100, logical_counter := u64Size - 1 } 90).get_time) := by
  decide

/-- Claim C2 (amended): for every clock state, remote timestamp and `now`,
provided the tie-branch counter addition does not overflow `u64`
(`max(local_counter, remote_counter) + 1 < 2^64`), the timestamp after
`update` is strictly greater than the remote timestamp under lexicographic
order. -/
theorem update_causality_amended_C2 (c r : HybridLogicalClock) (now : Nat)
    (h : max c.logical_counter r.logical_counter + 1 < u64Size) :
    tsLt r.get_time ((update c r now).get_time) := by
  by_cases hpt : max now r.physical_time = r.physical_time
  · right
    rw [update_tie_eq c r now hpt]
    refine ⟨rfl, ?_⟩
    show r.logical_counter < (max c.logical_counter r.logical_counter + 1) % u64Size
    rw [Nat.mod_eq_of_lt h]
    exact Nat.lt_succ_of_le (le_max_right _ _)
  · left
    rw [update_advance_eq c r now hpt]
    exact lt_of_le_of_ne (le_max_right _ _) (fun hh => hpt hh.symm)

/-- Witness for C2's amended theorem at the spec's own example: clock
`(100, 2)` merged with remote `(100, 5)` at `now = 90` strictly exceeds the
remote timestamp. -/
theorem update_causality_amended_C2_witness :
    max 2 5 + 1 < u64Size ∧
    tsLt (get_time { physical_time := 100, logical_counter := 5 })
      ((update { physical_time := 100, logical_counter := 2 }
        { physical_time := 100, logical_counter := 5 } 90).get_time) :=
  ⟨by decide,
    update_causality_amended_C2 { physical_time := 100, logical_counter := 2 }
      { physical_time := 100, logical_counter := 5 } 90 (by decide)⟩

/-- Claim C5 counterexample: with the remote alone ahead, the code does not
set the counter to `remote_counter + 1`.  Clock `(100, 2)` merging remote
`(150, 0)` at `now = 90` yields `(150, 3)` — the code takes
`max(local_counter, remote_counter) + 1 = 3` — not the claimed `(150, 1)`. -/
theorem update_remote_ahead_counterexample_C5 :
    (update { physical_time := 100, logical_counter := 2 }
        { physical_time := 150, logical_counter := 0 } 90).get_time = (150, 3) ∧
    ((150, 3) : Nat × Nat) ≠ (150, 1) := by
  decide

/-- Claim C5 (amended): when the remote physical time alone is the maximum of
`now`, the remote physical time and the local physical time, `update` sets
the physical time to the remote's and the counter to
`(max(local_counter, remote_counter) + 1) mod 2^64` — it folds in the local
counter rather than using the remote counter alone. -/
theorem update_remote_ahead_amended_C5 (c r : HybridLogicalClock) (now : Nat)
    (h1 : now < r.physical_time) (h2 : c.physical_time < r.physical_time) :
    update c r now =
      { physical_time := r.physical_time,
        logical_counter := (max c.logical_counter r.logical_counter + 1) % u64Size } :=
  update_tie_eq c r now (max_eq_right (Nat.le_of_lt h1))

/-- Witness for C5's amended theorem at the claim's concrete input: clock
`(100, 2)` merging remote `(150, 0)` at `now = 90` yields `(150, 3)`. -/
theorem update_remote_ahead_amended_C5_witness :
    update { physical_time := 100, logical_counter := 2 }
      { physical_time := 150, logical_counter := 0 } 90 =
      { physical_time := 150, logical_counter := 3 } := by
  rw [update_remote_ahead_amended_C5 { physical_time := 100, logical_counter := 2 }
    { physical_time := 150, logical_counter := 0 } 90 (by decide) (by decide)]
  decide

/-- Claim C6 counterexample: on a physical-time tie the counter is
`max(local, remote) + 1` only up to `u64` wrap-around.  Merging clock
`(100, 2^64 - 1)` with remote `(100, 0)` at `now = 90` wraps the counter to
`0`, which differs from `max(2^64 - 1, 0) + 1 = 2^64`. -/
theorem update_tie_overflow_counterexample_C6 :
    (update { physical_time := 100, logical_counter := u64Size - 1 }
        { physical_time := 100, logical_counter := 0 } 90).logical_counter = 0 ∧
    (0 : Nat) ≠ max (u64Size - 1) 0 + 1 := by
  decide

/-- Claim C6 (amended): when the remote and local physical times are both
equal to the maximum of the three candidate times, `update` keeps that
physical time and sets the counter to
`(max(local_counter, remote_counter) + 1) mod 2^64` (an exact `+ 1` except
at the `u64` boundary). -/
theorem update_equal_physical_amended_C6 (c r : HybridLogicalClock) (now : Nat)
    (h1 : r.physical_time = c.physical_time) (h2 : now ≤ r.physical_time) :
    update c r now =
      { physical_time := r.physical_time,
        logical_counter := (max c.logical_counter r.logical_counter + 1) % u64Size } :=
  update_tie_eq c r now (max_eq_right h2)

/-- Witness for C6's amended theorem at the claim's concrete input: clock
`(100, 2)` merging remote `(100, 5)` at `now = 90` yields `(100, 6)`. -/
theorem update_equal_physical_amended_C6_witness :
    update { physical_time := 100, logical_counter := 2 }
      { physical_time := 100, logical_counter := 5 } 90 =
      { physical_time := 100, logical_counter := 6 } := by
  rw [update_equal_physical_amended_C6 { physical_time := 100, logical_counter := 2 }
    { physical_time := 100, logical_counter := 5 } 90 (by decide) (by decide)]
  decide

/-- Claim C8 counterexample: `advance` with `now` frozen at the clock's
physical time does not always add exactly `1` to the counter.  From
`(100, 2^64 - 1)` with `now = 100` the `u64` addition wraps and the counter
becomes `0`, not `(2^64 - 1) + 1`. -/
theorem increment_overflow_counterexample_C8 :
    (increment { physical_time := 100, logical_counter := u64Size - 1 } 100).logical_counter
      = 0 ∧
    (0 : Nat) ≠ (u64Size - 1) + 1 := by
  decide

/-- Claim C8 (amended): for every clock state `(P, c)`, two `advance` calls
with `now` frozen at `P` keep the physical time at `P` and take the counter
to `(c + 1) mod 2^64` and then `(c + 2) mod 2^64` — exactly `c + 1` and
`c + 2` except at the `u64` boundary. -/
theorem increment_twice_frozen_C8 (P c : Nat) :
    increment { physical_time := P, logical_counter := c } P =
      { physical_time := P, logical_counter := (c + 1) % u64Size } ∧
    increment (increment { physical_time := P, logical_counter := c } P) P =
      { physical_time := P, logical_counter := (c + 2) % u64Size } := by
  have h1 : increment { physical_time := P, logical_counter := c } P =
      { physical_time := P, logical_counter := (c + 1) % u64Size } := by
    simp [increment]
  refine ⟨h1, ?_⟩
  rw [h1]
  simp [increment, Nat.mod_add_mod]

/-- Claim C10: the counter updates in `increment` and `update` are unguarded
`u64` additions.  Below the boundary the `+ 1` is exact: whenever the
counter being bumped is less than `2^64 - 1` the new counter equals the old
plus one.  At the boundary `2^64 - 1` the addition wraps to `0`, so neither
operation strictly increases the counter there. -/
theorem counter_add_overflow_C10 :
    (∀ c : HybridLogicalClock, ∀ now : Nat,
      c.logical_counter < u64Size - 1 → now = c.physical_time →
      (increment c now).logical_counter = c.logical_counter + 1) ∧
    (∀ c r : HybridLogicalClock, ∀ now : Nat,
      max c.logical_counter r.logical_counter < u64Size - 1 →
      max now r.physical_time = r.physical_time →
      (update c r now).logical_counter = max c.logical_counter r.logical_counter + 1) ∧
    (increment { physical_time := 100, logical_counter := u64Size - 1 } 100).logical_counter
      = 0 ∧
    (update { physical_time := 100, logical_counter := u64Size - 1 }
      { physical_time := 100, logical_counter := 0 } 90).logical_counter = 0 := by
  refine ⟨?_, ?_, by decide, by decide⟩
  · intro c now hc hnow
    have hlt : c.logical_counter + 1 < u64Size := by
      have : (0 : Nat) < u64Size := by decide
      omega
    simp [increment, hnow, Nat.mod_eq_of_lt hlt]
  · intro c r now hc hpt
    have hlt : max c.logical_counter r.logical_counter + 1 < u64Size := by
      have : (0 : Nat) < u64Size := by decide
      omega
    rw [update_tie_eq c r now hpt]
    exact Nat.mod_eq_of_lt hlt

/-- Witness for C10 at concrete inputs away from the boundary: `increment`
on `(100, 5)` at `now = 100` gives counter `6`, and `update` of `(100, 2)`
with remote `(100, 5)` at `now = 90` gives counter `6`. -/
theorem counter_add_overflow_C10_witness :
    (increment { physical_time := 100, logical_counter := 5 } 100).logical_counter = 6 ∧
    (update { physical_time := 100, logical_counter := 2 }
      { physical_time := 100, logical_counter := 5 } 90).logical_counter = 6 := by
  constructor
  · exact counter_add_overflow_C10.1 { physical_time := 100, logical_counter := 5 } 100
      (by decide) (by decide)
  · exact counter_add_overflow_C10.2.1 { physical_time := 100, logical_counter := 2 }
      { physical_time := 100, logical_counter := 5 } 90 (by decide) (by decide)
